import Mathlib

/-!
Shallow embedding of the Meld Studio Companion module (`src/main.js`) and
proofs about its specification claims.

Conventions of the embedding:
* JavaScript numbers that flow through the connection/timer logic are
  modelled by `JSNum` (`nan`, `inf`, `ninf`, or an integer `num n`); every
  call site in the source feeds integer millisecond values
  (differences of `Date.now()`), so an `Int` payload is faithful.
* The module instance's mutable fields become the record `ModState`;
  each method becomes a state-transition function.  `Date.now()` is an
  explicit `now : Int` argument.
* `setInterval` is modelled by allocating a fresh tick identifier from
  `nextTimerId` and appending it to a list of live tick sources
  (`liveRecordTicks` / `liveStreamTicks`); `clearInterval` removes the
  identifier.  This makes "how many periodic tick sources are running"
  observable, which the idempotence claims are about.
* Remote method invocations on the QWebChannel proxy only leave the
  process (they do not touch local state), so they are modelled by
  appending the invoked method name to `remoteCalls`.
-/

namespace MeldStudio

/-- A JavaScript number as seen by the module: `NaN`, the infinities, or a
finite value (integral at every call site in the source). -/
inductive JSNum where
  | nan : JSNum
  | inf : JSNum
  | ninf : JSNum
  | num : Int → JSNum
deriving DecidableEq, Repr

/-- `String(n).padStart(2, '0')` for a natural number `n` (the source's
`pad`): prepend a single `'0'` when the decimal representation is one
character long. -/
def pad (n : Nat) : String :=
  let s := toString n
  if s.length < 2 then "0" ++ s else s

/-- `formatHMS(ms)` from `src/main.js`: non-finite or negative input is
replaced by `0`, then the total seconds `floor(ms / 1000)` are split into
hours / minutes / seconds, each zero-padded to at least two characters. -/
def formatHMS (ms : JSNum) : String :=
  let msn : Nat :=
    match ms with
    | .num n => if n < 0 then 0 else n.toNat
    | _ => 0
  let total := msn / 1000
  let h := total / 3600
  let m := total % 3600 / 60
  let s := total % 60
  pad h ++ ":" ++ pad m ++ ":" ++ pad s

/-- Zero-padding to at least two digits, written from the claim's words
(for the refinement comparison with the source's `pad`). -/
def pad2 (n : Nat) : String :=
  if (toString n).length < 2 then "0" ++ toString n else toString n

/-- Formatting as the claim describes it: the truncated components of
`max(d, 0) / 1000` seconds, with non-finite inputs treated as zero, minutes
and seconds two digits, hours zero-padded to at least two digits. -/
def formatHMSSpec (d : JSNum) : String :=
  let secs : Nat :=
    match d with
    | .num n => (max n 0).toNat / 1000
    | _ => 0
  pad2 (secs / 3600) ++ ":" ++ pad2 (secs / 60 % 60) ++ ":" ++ pad2 (secs % 60)

/-! ### The scene-name cleaning regex

`_ingestScenes` computes `String(scene.name || scene.id).replace(/\s*\(.*?\)\s*$/, '')`.
The regex (non-global, so a single leftmost match is replaced) matches a
run of whitespace, an opening parenthesis, a lazily-quantified run of
non-newline characters, a closing parenthesis, then whitespace up to the
end of the string.  A successful match therefore always extends to the end
of the string, and the leftmost match begins at the earliest opening
parenthesis from which a closing parenthesis followed only by whitespace
is reachable over non-newline characters, together with the whitespace run
immediately before that parenthesis.  `cleanName` below implements exactly
this replacement semantics over the character list. -/

/-- JavaScript's `\s` character class, restricted to the code points the
module can realistically see (space, tab, newline, carriage return,
vertical tab, form feed, no-break space). -/
def isWS (c : Char) : Bool :=
  c == ' ' || c == '\t' || c == '\n' || c == '\r' ||
  c == Char.ofNat 0x0b || c == Char.ofNat 0x0c || c == Char.ofNat 0xa0

/-- JavaScript's `.` (without the `s` flag): any character except the line
terminators. -/
def dotChar (c : Char) : Bool :=
  !(c == '\n' || c == '\r' || c == Char.ofNat 0x2028 || c == Char.ofNat 0x2029)

/-- Whether `\.*?\)\s*$` can match this suffix: some closing parenthesis is
reachable over non-newline characters and is followed only by whitespace. -/
def tailHasClose : List Char → Bool
  | [] => false
  | c :: rest => (c == ')' && rest.all isWS) || (dotChar c && tailHasClose rest)

/-- Left-to-right scan implementing the single leftmost replacement of
`/\s*\(.*?\)\s*$/` by the empty string.  `committed` holds characters known
to be kept, `pend` the current run of trailing whitespace (dropped if the
match starts at the next parenthesis, kept otherwise). -/
def scanClean (committed pend : List Char) : List Char → List Char
  | [] => committed ++ pend
  | c :: rest =>
    if c == '(' && tailHasClose rest then committed
    else if isWS c then scanClean committed (pend ++ [c]) rest
    else scanClean (committed ++ pend ++ [c]) []  rest

/-- The name normalization applied by `_ingestScenes`:
`name.replace(/\s*\(.*?\)\s*$/, '')`. -/
def cleanName (s : String) : String :=
  String.mk (scanClean [] [] s.data)

example : cleanName "Main (Program)" = "Main" := by decide
example : cleanName "Lower Thirds" = "Lower Thirds" := by decide
example : cleanName "A (B) (C)" = "A" := by decide
example : cleanName "a(b)c" = "a(b)c" := by decide
example : formatHMS (.num 3661000) = "01:01:01" := by decide
example : formatHMS (.num (-5)) = "00:00:00" := by decide
example : formatHMS .nan = "00:00:00" := by decide

/-! ### Data model -/

/-- A raw scene object as delivered by the remote (`{id, name}`); an absent
or empty `name` is modelled by the empty string (both are falsy under
JavaScript's `scene.name || scene.id`). -/
structure RawScene where
  id : String
  name : String
deriving DecidableEq, Repr

/-- A normalized scene stored in `this.scenes`. -/
structure Scene where
  id : String
  name : String
deriving DecidableEq, Repr

/-- An entry of the remote `session.items` mapping: a `type` tag and a
display name (empty string for an absent/falsy name). -/
structure SessionItem where
  name : String
  type : String
deriving DecidableEq, Repr

/-- The capability surface of the remote proxy (`this.qweb`): which
methods `typeof this.qweb.m === 'function'` finds, plus the data the two
scene-discovery capabilities would deliver.  `getScenes = some xs` models
a `getScenes(cb)` function whose callback receives `xs` (delivery is
modelled synchronously, matching the single-threaded event loop);
`session = some items` models a present `session.items` mapping. -/
structure ProxyCaps where
  toggleStream : Bool
  toggleStreaming : Bool
  startStream : Bool
  startStreaming : Bool
  stopStream : Bool
  stopStreaming : Bool
  toggleRecord : Bool
  toggleRecording : Bool
  startRecord : Bool
  startRecording : Bool
  stopRecord : Bool
  stopRecording : Bool
  getScenes : Option (List RawScene)
  session : Option (List (String × SessionItem))
deriving DecidableEq, Repr

/-- Companion status values the module reports via `updateStatus`. -/
inductive Status where
  | connecting : Status
  | ok : Status
  | disconnected : Status
  | connection_failure : Status
deriving DecidableEq, Repr

/-- The mutable fields of the module instance, plus the observable effects
needed by the claims: the set of live `setInterval` tick sources (split by
which timer slot created them), the published variable values, the queue of
pending `setTimeout` reconnects (each with its delay in ms), the log, and
the remote method invocations.  The connection config (`host`, `port`) is
handled by the standalone `initConfig` below. -/
structure ModState where
  qweb : Option ProxyCaps
  ws : Bool
  scenes : List (String × Scene)
  currentSceneId : Option String
  isRecording : Bool
  isStreaming : Bool
  recordStart : Option Int
  streamStart : Option Int
  recordTimer : Option Nat
  streamTimer : Option Nat
  liveRecordTicks : List Nat
  liveStreamTicks : List Nat
  nextTimerId : Nat
  recording_timecode : String
  streaming_timecode : String
  status : Status
  pendingReconnects : List Nat
  log : List (String × String)
  remoteCalls : List String
deriving DecidableEq, Repr

/-! ### Timer operations (`_startRecording` … `_stopStreamTimer`) -/

/-- `_stopRecordTimer()`: `clearInterval` the record tick source (if any)
and clear the slot. -/
def stopRecordTimer (s : ModState) : ModState :=
  match s.recordTimer with
  | some t =>
    { s with recordTimer := none, liveRecordTicks := s.liveRecordTicks.filter (· != t) }
  | none => s

/-- `_stopStreamTimer()`. -/
def stopStreamTimer (s : ModState) : ModState :=
  match s.streamTimer with
  | some t =>
    { s with streamTimer := none, liveStreamTicks := s.liveStreamTicks.filter (· != t) }
  | none => s

/-- `_startRecording()`: set the flag, record `Date.now()`, stop any
previous ticker, then `setInterval` a fresh one (a fresh identifier is
drawn from `nextTimerId`). -/
def startRecording (now : Int) (s : ModState) : ModState :=
  let s1 := { s with isRecording := true, recordStart := some now }
  let s2 := stopRecordTimer s1
  { s2 with
    recordTimer := some s2.nextTimerId
    liveRecordTicks := s2.liveRecordTicks ++ [s2.nextTimerId]
    nextTimerId := s2.nextTimerId + 1 }

/-- `_stopRecording()`: clear the flag, stop the ticker, publish
`"00:00:00"`. -/
def stopRecording (s : ModState) : ModState :=
  let s1 := stopRecordTimer { s with isRecording := false }
  { s1 with recording_timecode := "00:00:00" }

/-- `_startStreaming()`. -/
def startStreaming (now : Int) (s : ModState) : ModState :=
  let s1 := { s with isStreaming := true, streamStart := some now }
  let s2 := stopStreamTimer s1
  { s2 with
    streamTimer := some s2.nextTimerId
    liveStreamTicks := s2.liveStreamTicks ++ [s2.nextTimerId]
    nextTimerId := s2.nextTimerId + 1 }

/-- `_stopStreaming()`. -/
def stopStreaming (s : ModState) : ModState :=
  let s1 := stopStreamTimer { s with isStreaming := false }
  { s1 with streaming_timecode := "00:00:00" }

/-- The body of the record `setInterval` callback: publish
`formatHMS(Date.now() - (this.recordStart || Date.now()))` (a `recordStart`
of `null` or the falsy `0` falls back to `Date.now()`). -/
def recordTick (now : Int) (s : ModState) : ModState :=
  let start : Int :=
    match s.recordStart with
    | some t => if t = 0 then now else t
    | none => now
  { s with recording_timecode := formatHMS (.num (now - start)) }

/-- The body of the stream `setInterval` callback. -/
def streamTick (now : Int) (s : ModState) : ModState :=
  let start : Int :=
    match s.streamStart with
    | some t => if t = 0 then now else t
    | none => now
  { s with streaming_timecode := formatHMS (.num (now - start)) }

/-- `_onRecordingStateChange(active)`: start on a false→true edge, stop on
a true→false edge, nothing on a redundant notification. -/
def onRecordingStateChange (now : Int) (active : Bool) (s : ModState) : ModState :=
  if active && !s.isRecording then startRecording now s
  else if !active && s.isRecording then stopRecording s
  else s

/-- `_onStreamingStateChange(active)`. -/
def onStreamingStateChange (now : Int) (active : Bool) (s : ModState) : ModState :=
  if active && !s.isStreaming then startStreaming now s
  else if !active && s.isStreaming then stopStreaming s
  else s

/-! ### Connection events -/

/-- The `ws.on('close')` handler: report `disconnected`, stop both tickers,
and `setTimeout(() => this._connect(), 3000)` — one more pending reconnect
with a 3000 ms delay.  Note that it touches neither the published
timecode variables nor `this.qweb`. -/
def closeHandler (s : ModState) : ModState :=
  let s1 := { s with status := .disconnected }
  let s2 := stopStreamTimer (stopRecordTimer s1)
  { s2 with pendingReconnects := s2.pendingReconnects ++ [3000] }

/-- `destroy()`: stop both tickers, close and null the socket.  `this.qweb`
is not touched. -/
def destroy (s : ModState) : ModState :=
  let s1 := stopStreamTimer (stopRecordTimer s)
  if s1.ws then { s1 with ws := false } else s1

/-! ### Scene registry (`_ingestScenes`, `_refreshScenes`) -/

/-- `this.scenes[k] = v` on a JavaScript object: overwrite in place when
the key exists, append otherwise. -/
def insertScene (m : List (String × Scene)) (k : String) (v : Scene) :
    List (String × Scene) :=
  if m.any (fun p => p.1 == k) then m.map (fun p => if p.1 == k then (k, v) else p)
  else m ++ [(k, v)]

/-- The per-scene normalization in `_ingestScenes`'s loop body:
`{ id: scene.id, name: cleanName }` with `cleanName` applied to
`String(scene.name || scene.id)`. -/
def mkScene (r : RawScene) : Scene :=
  { id := r.id, name := cleanName (if r.name = "" then r.id else r.name) }

/-- The mapping `_ingestScenes` builds: start from the freshly emptied
object (`this.scenes = {}`) and insert one normalized entry per raw scene. -/
def ingestMap (xs : List RawScene) : List (String × Scene) :=
  xs.foldl (fun m r => insertScene m r.id (mkScene r)) []

/-- `_ingestScenes(scenesArray)` as a state transition (the subsequent
action/feedback/preset regeneration is a pure projection of the new
mapping and carries no extra state). -/
def ingestScenes (s : ModState) (xs : List RawScene) : ModState :=
  { s with scenes := ingestMap xs }

/-- The warning `_refreshScenes` logs when neither discovery capability is
present. -/
def noScenesWarning : String × String :=
  ("warn", "Unable to discover scenes (no getScenes() or session.items).")

/-- `_refreshScenes()`: nothing without a proxy; prefer `getScenes`; fall
back to filtering `session.items` for entries of type `'scene'` (with
`items[id]?.name || id` as the raw name); otherwise only log a warning. -/
def refreshScenes (s : ModState) : ModState :=
  match s.qweb with
  | none => s
  | some p =>
    match p.getScenes with
    | some xs => ingestScenes s xs
    | none =>
      match p.session with
      | some items =>
        let xs := (items.filter (fun q => q.2.type == "scene")).map
          (fun q => { id := q.1, name := if q.2.name = "" then q.1 else q.2.name : RawScene })
        ingestScenes s xs
      | none => { s with log := s.log ++ [noScenesWarning] }

/-! ### Action callbacks (`_defineActions`)

A remote invocation `this.qweb.m()` leaves the local state untouched and is
recorded by appending `m` to `remoteCalls`. -/

/-- Append one invoked remote method name. -/
def callRemote (s : ModState) (name : String) : ModState :=
  { s with remoteCalls := s.remoteCalls ++ [name] }

/-- The `toggle_stream` action callback. -/
def cbToggleStream (now : Int) (s : ModState) : ModState :=
  let s1 :=
    match s.qweb with
    | some p =>
      if p.toggleStream then callRemote s "toggleStream"
      else if p.toggleStreaming then callRemote s "toggleStreaming"
      else s
    | none => s
  if s1.isStreaming then stopStreaming s1 else startStreaming now s1

/-- The `start_stream` action callback. -/
def cbStartStream (now : Int) (s : ModState) : ModState :=
  let s1 :=
    match s.qweb with
    | some p => if p.startStream then callRemote s "startStream" else s
    | none => s
  if !s1.isStreaming then startStreaming now s1 else s1

/-- The `stop_stream` action callback. -/
def cbStopStream (s : ModState) : ModState :=
  let s1 :=
    match s.qweb with
    | some p => if p.stopStream then callRemote s "stopStream" else s
    | none => s
  if s1.isStreaming then stopStreaming s1 else s1

/-- The `toggle_record` action callback. -/
def cbToggleRecord (now : Int) (s : ModState) : ModState :=
  let s1 :=
    match s.qweb with
    | some p =>
      if p.toggleRecord then callRemote s "toggleRecord"
      else if p.toggleRecording then callRemote s "toggleRecording"
      else s
    | none => s
  if s1.isRecording then stopRecording s1 else startRecording now s1

/-- The `start_record` action callback. -/
def cbStartRecord (now : Int) (s : ModState) : ModState :=
  let s1 :=
    match s.qweb with
    | some p => if p.startRecord then callRemote s "startRecord" else s
    | none => s
  if !s1.isRecording then startRecording now s1 else s1

/-- The `stop_record` action callback. -/
def cbStopRecord (s : ModState) : ModState :=
  let s1 :=
    match s.qweb with
    | some p => if p.stopRecord then callRemote s "stopRecord" else s
    | none => s
  if s1.isRecording then stopRecording s1 else s1

/-! ### Configuration (`init` / `configUpdated`) -/

/-- The configuration object handed to `init`/`configUpdated`: `host` is
`none` for an absent field, `port` is the JavaScript value of
`Number(config.port)` (`none` models an absent field, whose conversion is
`NaN`; a non-numeric string also converts to `NaN` and is passed as
`some .nan`). -/
structure Config where
  host : Option String
  port : Option JSNum
deriving DecidableEq, Repr

/-- The effective connection target. -/
structure EffConfig where
  host : String
  port : JSNum
deriving DecidableEq, Repr

/-- `Number(config?.port)`: an absent field converts to `NaN`. -/
def toNumber : Option JSNum → JSNum
  | none => .nan
  | some v => v

/-- JavaScript truthiness of a number: everything except `NaN` and `0`. -/
def truthyNum : JSNum → Bool
  | .nan => false
  | .num n => n != 0
  | .inf => true
  | .ninf => true

/-- `this.config = { host: config?.host || '127.0.0.1', port: Number(config?.port) || 13376 }`
as executed by `init`. -/
def initConfig (c : Option Config) : EffConfig :=
  match c with
  | none => { host := "127.0.0.1", port := .num 13376 }
  | some cfg =>
    { host :=
        match cfg.host with
        | some h => if h = "" then "127.0.0.1" else h
        | none => "127.0.0.1"
      port :=
        let n := toNumber cfg.port
        if truthyNum n then n else .num 13376 }

/-- The identical expression as executed by `configUpdated`. -/
def configUpdatedConfig (c : Option Config) : EffConfig :=
  match c with
  | none => { host := "127.0.0.1", port := .num 13376 }
  | some cfg =>
    { host :=
        match cfg.host with
        | some h => if h = "" then "127.0.0.1" else h
        | none => "127.0.0.1"
      port :=
        let n := toNumber cfg.port
        if truthyNum n then n else .num 13376 }

/-! ### Invariants and sample states -/

/-- The live tick sources are exactly the ones registered in the two timer
slots.  This holds in every state the module actually reaches: each
`setInterval` result is stored in its slot and each slot is cleared only
via `clearInterval`. -/
def tickInv (s : ModState) : Prop :=
  s.liveRecordTicks = s.recordTimer.toList ∧ s.liveStreamTicks = s.streamTimer.toList

instance (s : ModState) : Decidable (tickInv s) := by
  unfold tickInv
  infer_instance

/-- The state right after `init`: no proxy, no socket yet, empty registry,
timers idle, variables initialized to `"00:00:00"`. -/
def initState : ModState where
  qweb := none
  ws := false
  scenes := []
  currentSceneId := none
  isRecording := false
  isStreaming := false
  recordStart := none
  streamStart := none
  recordTimer := none
  streamTimer := none
  liveRecordTicks := []
  liveStreamTicks := []
  nextTimerId := 0
  recording_timecode := "00:00:00"
  streaming_timecode := "00:00:00"
  status := .connecting
  pendingReconnects := []
  log := []
  remoteCalls := []

/-- A proxy exposing no capability at all. -/
def emptyCaps : ProxyCaps where
  toggleStream := false
  toggleStreaming := false
  startStream := false
  startStreaming := false
  stopStream := false
  stopStreaming := false
  toggleRecord := false
  toggleRecording := false
  startRecord := false
  startRecording := false
  stopRecord := false
  stopRecording := false
  getScenes := none
  session := none

/-! ### Helper lemmas: decimal string lengths -/

theorem toDigitsCore_len_le (b : Nat) :
    ∀ (fuel n : Nat) (ds : List Char), ds.length ≤ (Nat.toDigitsCore b fuel n ds).length
  | 0, _, _ => le_refl _
  | fuel + 1, n, ds => by
    unfold Nat.toDigitsCore
    dsimp only
    split
    · simp
    · calc ds.length ≤ (Nat.digitChar (n % b) :: ds).length := by simp
        _ ≤ _ := toDigitsCore_len_le b fuel (n / b) _

theorem one_le_toString_length (n : Nat) : 1 ≤ (toString n).length := by
  show 1 ≤ (Nat.repr n).length
  rw [Nat.repr, List.length_asString]
  unfold Nat.toDigits Nat.toDigitsCore
  dsimp only
  split
  · simp
  · simpa using toDigitsCore_len_le 10 n (n / 10) [Nat.digitChar (n % 10)]

theorem two_le_pad_length (n : Nat) : 2 ≤ (pad n).length := by
  have h1 := one_le_toString_length n
  have h0 : ("0" : String).length = 1 := rfl
  simp only [pad]
  split
  · rw [String.length_append]
    omega
  · omega

theorem pad_length_eq_two {n : Nat} (h : n < 100) : (pad n).length = 2 := by
  have h1 := one_le_toString_length n
  have h0 : ("0" : String).length = 1 := rfl
  have h2 : (toString n).length ≤ 2 := by
    have := Nat.repr_length n 2 (by omega) (by omega)
    exact this
  simp only [pad]
  split
  · rw [String.length_append]
    omega
  · omega

theorem pad_eq_pad2 (n : Nat) : pad n = pad2 n := rfl

/-! ### C4 support -/

theorem formatHMS_eq_spec (d : JSNum) : formatHMS d = formatHMSSpec d := by
  cases d with
  | num n =>
    simp only [formatHMS, formatHMSSpec]
    have hclamp : (if n < 0 then 0 else n.toNat) = (max n 0).toNat := by
      split <;> omega
    rw [hclamp]
    have hmin :
        (max n 0).toNat / 1000 / 60 % 60 = (max n 0).toNat / 1000 % 3600 / 60 := by
      have := Nat.mod_mul_right_div_self ((max n 0).toNat / 1000) 60 60
      simpa using this.symm
    rw [← hmin, pad_eq_pad2, pad_eq_pad2, pad_eq_pad2]
  | nan => rfl
  | inf => rfl
  | ninf => rfl

/-- C4: `formatHMS` returns zero-padded `HH:MM:SS` built from the truncated
components of `max(d, 0) / 1000` seconds, with non-finite inputs treated as
zero; minutes and seconds are exactly two digits, hours at least two digits
with no upper clamp, and the quoted concrete values hold. -/
theorem c4_formatHMS_correct :
    (∀ d : JSNum, formatHMS d = formatHMSSpec d) ∧
    (∀ d : JSNum, ∃ h m s : Nat, m < 60 ∧ s < 60 ∧
        formatHMS d = pad h ++ ":" ++ pad m ++ ":" ++ pad s ∧
        (pad m).length = 2 ∧ (pad s).length = 2 ∧ 2 ≤ (pad h).length) ∧
    formatHMS (.num (-5)) = "00:00:00" ∧
    formatHMS (.num 0) = "00:00:00" ∧
    formatHMS .nan = "00:00:00" ∧
    formatHMS .inf = "00:00:00" ∧
    formatHMS (.num 3661000) = "01:01:01" ∧
    formatHMS (.num 360000000) = "100:00:00" := by
  refine ⟨formatHMS_eq_spec, ?_, by decide, by decide, by decide, by decide, by decide, by decide⟩
  intro d
  cases d with
  | num n =>
    refine ⟨(if n < 0 then 0 else n.toNat) / 1000 / 3600,
        (if n < 0 then 0 else n.toNat) / 1000 % 3600 / 60,
        (if n < 0 then 0 else n.toNat) / 1000 % 60, ?_, ?_, rfl, ?_, ?_, ?_⟩
    · have : (if n < 0 then 0 else n.toNat) / 1000 % 3600 < 3600 := Nat.mod_lt _ (by omega)
      omega
    · exact Nat.mod_lt _ (by omega)
    · exact pad_length_eq_two (by
        have : (if n < 0 then 0 else n.toNat) / 1000 % 3600 < 3600 := Nat.mod_lt _ (by omega)
        omega)
    · exact pad_length_eq_two (Nat.lt_of_lt_of_le (Nat.mod_lt _ (by omega)) (by omega))
    · exact two_le_pad_length _
  | nan => exact ⟨0, 0, 0, by omega, by omega, rfl, by decide, by decide, by decide⟩
  | inf => exact ⟨0, 0, 0, by omega, by omega, rfl, by decide, by decide, by decide⟩
  | ninf => exact ⟨0, 0, 0, by omega, by omega, rfl, by decide, by decide, by decide⟩

/-! ### Helper lemmas: field projections of the state transitions -/

@[simp] theorem stopRecordTimer_qweb (s : ModState) : (stopRecordTimer s).qweb = s.qweb := by
  unfold stopRecordTimer
  split <;> rfl

@[simp] theorem stopStreamTimer_qweb (s : ModState) : (stopStreamTimer s).qweb = s.qweb := by
  unfold stopStreamTimer
  split <;> rfl

@[simp] theorem stopRecordTimer_rtc (s : ModState) :
    (stopRecordTimer s).recording_timecode = s.recording_timecode := by
  unfold stopRecordTimer
  split <;> rfl

@[simp] theorem stopRecordTimer_stc (s : ModState) :
    (stopRecordTimer s).streaming_timecode = s.streaming_timecode := by
  unfold stopRecordTimer
  split <;> rfl

@[simp] theorem stopStreamTimer_rtc (s : ModState) :
    (stopStreamTimer s).recording_timecode = s.recording_timecode := by
  unfold stopStreamTimer
  split <;> rfl

@[simp] theorem stopStreamTimer_stc (s : ModState) :
    (stopStreamTimer s).streaming_timecode = s.streaming_timecode := by
  unfold stopStreamTimer
  split <;> rfl

@[simp] theorem stopRecordTimer_status (s : ModState) :
    (stopRecordTimer s).status = s.status := by
  unfold stopRecordTimer
  split <;> rfl

@[simp] theorem stopStreamTimer_status (s : ModState) :
    (stopStreamTimer s).status = s.status := by
  unfold stopStreamTimer
  split <;> rfl

@[simp] theorem stopRecordTimer_pending (s : ModState) :
    (stopRecordTimer s).pendingReconnects = s.pendingReconnects := by
  unfold stopRecordTimer
  split <;> rfl

@[simp] theorem stopStreamTimer_pending (s : ModState) :
    (stopStreamTimer s).pendingReconnects = s.pendingReconnects := by
  unfold stopStreamTimer
  split <;> rfl

@[simp] theorem stopRecordTimer_recordTimer (s : ModState) :
    (stopRecordTimer s).recordTimer = none := by
  unfold stopRecordTimer
  split <;> simp_all

@[simp] theorem stopStreamTimer_streamTimer (s : ModState) :
    (stopStreamTimer s).streamTimer = none := by
  unfold stopStreamTimer
  split <;> simp_all

@[simp] theorem stopRecordTimer_streamTimer (s : ModState) :
    (stopRecordTimer s).streamTimer = s.streamTimer := by
  unfold stopRecordTimer
  split <;> rfl

@[simp] theorem stopStreamTimer_recordTimer (s : ModState) :
    (stopStreamTimer s).recordTimer = s.recordTimer := by
  unfold stopStreamTimer
  split <;> rfl

@[simp] theorem stopRecordTimer_liveStream (s : ModState) :
    (stopRecordTimer s).liveStreamTicks = s.liveStreamTicks := by
  unfold stopRecordTimer
  split <;> rfl

@[simp] theorem stopStreamTimer_liveRecord (s : ModState) :
    (stopStreamTimer s).liveRecordTicks = s.liveRecordTicks := by
  unfold stopStreamTimer
  split <;> rfl

/-- Stopping a ticker whose slot agrees with the live list empties the
live list. -/
theorem stopRecordTimer_live (s : ModState)
    (h : s.liveRecordTicks = s.recordTimer.toList) :
    (stopRecordTimer s).liveRecordTicks = [] := by
  unfold stopRecordTimer
  split
  · next t heq => simp [h, heq]
  · next heq => simp [h, heq]

theorem stopStreamTimer_live (s : ModState)
    (h : s.liveStreamTicks = s.streamTimer.toList) :
    (stopStreamTimer s).liveStreamTicks = [] := by
  unfold stopStreamTimer
  split
  · next t heq => simp [h, heq]
  · next heq => simp [h, heq]

/-! ### C1 — reconnect scheduling on socket close -/

/-- C1 (amended): every close event appends exactly one pending reconnect
with the fixed 3000 ms delay (and reports `disconnected`); there is no
de-duplication, so pending reconnects accumulate across close events. -/
theorem c1_close_schedules_one_reconnect (s : ModState) :
    (closeHandler s).pendingReconnects = s.pendingReconnects ++ [3000] ∧
      (closeHandler s).status = .disconnected := by
  unfold closeHandler
  constructor
  · simp
  · simp

/-- C1 counterexample: two close events with no elapsed delay in between
leave two pending reconnects, so "at most one reconnect concurrently
outstanding" fails. -/
theorem c1_two_closes_two_pending :
    ¬ ((closeHandler (closeHandler initState)).pendingReconnects.length ≤ 1) := by
  decide

/-! ### C2 — the proxy reference is never invalidated on disconnect -/

/-- A bound state: proxy captured, socket open, both tickers running. -/
def boundState : ModState :=
  { initState with
    qweb := some emptyCaps
    ws := true
    status := .ok
    isRecording := true
    recordStart := some 1000
    recordTimer := some 0
    streamTimer := some 1
    liveRecordTicks := [0]
    liveStreamTicks := [1]
    nextTimerId := 2 }

/-- C2: contrary to the claim, neither the close handler nor `destroy`
sets the proxy reference absent — `this.qweb` survives every disconnect,
so a stale-proxy callback still finds (and acts through) the old proxy.
The claim is correct about the intent (the spec requires stale callbacks
to be no-ops) and the code does not implement it. -/
theorem c2_qweb_survives_disconnect :
    (∀ s : ModState, (closeHandler s).qweb = s.qweb ∧ (destroy s).qweb = s.qweb) ∧
    (closeHandler boundState).qweb = some emptyCaps ∧
    (destroy boundState).qweb = some emptyCaps := by
  refine ⟨fun s => ⟨?_, ?_⟩, by decide, by decide⟩
  · unfold closeHandler
    simp
  · unfold destroy
    dsimp only
    split <;> simp

/-! ### C9 — close stops tickers but leaves the published timecodes -/

/-- C9: on socket close, both tick timers are cancelled (slots cleared and
no live tick source remains) and the status becomes `disconnected`, while
the published `recording_timecode` / `streaming_timecode` values are left
untouched — unlike an explicit stop, which resets them to `"00:00:00"`. -/
theorem c9_close_keeps_timecodes (s : ModState) (h : tickInv s) :
    (closeHandler s).recording_timecode = s.recording_timecode ∧
    (closeHandler s).streaming_timecode = s.streaming_timecode ∧
    (closeHandler s).recordTimer = none ∧
    (closeHandler s).streamTimer = none ∧
    (closeHandler s).liveRecordTicks = [] ∧
    (closeHandler s).liveStreamTicks = [] ∧
    (closeHandler s).status = .disconnected ∧
    (∀ s2 : ModState, (stopRecording s2).recording_timecode = "00:00:00") ∧
    (∀ s2 : ModState, (stopStreaming s2).streaming_timecode = "00:00:00") := by
  obtain ⟨hr, hs⟩ := h
  refine ⟨?_, ?_, ?_, ?_, ?_, ?_, ?_, fun s2 => rfl, fun s2 => rfl⟩ <;>
    unfold closeHandler <;> simp
  · exact stopRecordTimer_live _ hr
  · rw [stopStreamTimer_live]
    simp [hs]

/-- C9 witness: the bound state satisfies the tick invariant and close
behaves as stated there. -/
theorem c9_witness :
    tickInv boundState ∧
      ((closeHandler boundState).recording_timecode =
          boundState.recording_timecode ∧
        (closeHandler boundState).streaming_timecode =
          boundState.streaming_timecode ∧
        (closeHandler boundState).recordTimer = none ∧
        (closeHandler boundState).streamTimer = none ∧
        (closeHandler boundState).liveRecordTicks = [] ∧
        (closeHandler boundState).liveStreamTicks = [] ∧
        (closeHandler boundState).status = .disconnected ∧
        (∀ s2 : ModState, (stopRecording s2).recording_timecode = "00:00:00") ∧
        (∀ s2 : ModState, (stopStreaming s2).streaming_timecode = "00:00:00")) :=
  ⟨by decide, c9_close_keeps_timecodes boundState (by decide)⟩

/-! ### C3 — calling start twice without an intervening stop -/

theorem startRecording_basic (now : Int) (s : ModState) :
    (startRecording now s).isRecording = true ∧
    (startRecording now s).recordStart = some now := by
  unfold startRecording stopRecordTimer
  dsimp only
  split <;> simp

theorem startRecording_of_inv (now : Int) (s : ModState)
    (h : s.liveRecordTicks = s.recordTimer.toList) :
    (startRecording now s).liveRecordTicks = [s.nextTimerId] ∧
    (startRecording now s).recordTimer = some s.nextTimerId ∧
    (startRecording now s).nextTimerId = s.nextTimerId + 1 := by
  unfold startRecording stopRecordTimer
  dsimp only
  split
  · next t heq =>
    refine ⟨?_, rfl, rfl⟩
    simp only [h, heq, Option.toList]
    simp [List.filter]
  · next heq =>
    refine ⟨?_, rfl, rfl⟩
    simp [h, heq]

theorem startRecording_stream_untouched (now : Int) (s : ModState) :
    (startRecording now s).liveStreamTicks = s.liveStreamTicks ∧
    (startRecording now s).streamTimer = s.streamTimer := by
  unfold startRecording stopRecordTimer
  dsimp only
  split <;> simp

theorem startStreaming_basic (now : Int) (s : ModState) :
    (startStreaming now s).isStreaming = true ∧
    (startStreaming now s).streamStart = some now := by
  unfold startStreaming stopStreamTimer
  dsimp only
  split <;> simp

theorem startStreaming_of_inv (now : Int) (s : ModState)
    (h : s.liveStreamTicks = s.streamTimer.toList) :
    (startStreaming now s).liveStreamTicks = [s.nextTimerId] ∧
    (startStreaming now s).streamTimer = some s.nextTimerId ∧
    (startStreaming now s).nextTimerId = s.nextTimerId + 1 := by
  unfold startStreaming stopStreamTimer
  dsimp only
  split
  · next t heq =>
    refine ⟨?_, rfl, rfl⟩
    simp only [h, heq, Option.toList]
    simp [List.filter]
  · next heq =>
    refine ⟨?_, rfl, rfl⟩
    simp [h, heq]

theorem startStreaming_record_untouched (now : Int) (s : ModState) :
    (startStreaming now s).liveRecordTicks = s.liveRecordTicks ∧
    (startStreaming now s).recordTimer = s.recordTimer := by
  unfold startStreaming stopStreamTimer
  dsimp only
  split <;> simp

theorem recordTick_of_recordStart {a b : ModState} (now : Int)
    (h : a.recordStart = b.recordStart) :
    (recordTick now a).recording_timecode = (recordTick now b).recording_timecode := by
  unfold recordTick
  dsimp only
  rw [h]

theorem streamTick_of_streamStart {a b : ModState} (now : Int)
    (h : a.streamStart = b.streamStart) :
    (streamTick now a).streaming_timecode = (streamTick now b).streaming_timecode := by
  unfold streamTick
  dsimp only
  rw [h]

/-- C3 (amended): calling start twice in a row does leave exactly one
active periodic tick source, but it does NOT preserve the first call's
start timestamp: the second call overwrites it with its own `Date.now()`,
so the published elapsed time equals that of a single start issued at the
SECOND call (not the first).  Both Timer Engine instances behave alike. -/
theorem c3_double_start (s : ModState) (t1 t2 : Int) (h : tickInv s) :
    ((startRecording t2 (startRecording t1 s)).liveRecordTicks.length = 1 ∧
      (startRecording t2 (startRecording t1 s)).isRecording = true ∧
      (startRecording t2 (startRecording t1 s)).recordStart = some t2 ∧
      (startRecording t2 (startRecording t1 s)).recordStart =
        (startRecording t2 s).recordStart ∧
      (∀ now : Int,
        (recordTick now (startRecording t2 (startRecording t1 s))).recording_timecode =
          (recordTick now (startRecording t2 s)).recording_timecode)) ∧
    ((startStreaming t2 (startStreaming t1 s)).liveStreamTicks.length = 1 ∧
      (startStreaming t2 (startStreaming t1 s)).isStreaming = true ∧
      (startStreaming t2 (startStreaming t1 s)).streamStart = some t2 ∧
      (startStreaming t2 (startStreaming t1 s)).streamStart =
        (startStreaming t2 s).streamStart ∧
      (∀ now : Int,
        (streamTick now (startStreaming t2 (startStreaming t1 s))).streaming_timecode =
          (streamTick now (startStreaming t2 s)).streaming_timecode)) := by
  obtain ⟨hr, hs⟩ := h
  obtain ⟨l1, rt1, _⟩ := startRecording_of_inv t1 s hr
  have hinv1 : (startRecording t1 s).liveRecordTicks =
      (startRecording t1 s).recordTimer.toList := by rw [l1, rt1]; rfl
  obtain ⟨l2, rt2, _⟩ := startRecording_of_inv t2 (startRecording t1 s) hinv1
  obtain ⟨ir2, rs2⟩ := startRecording_basic t2 (startRecording t1 s)
  obtain ⟨_, rsSingle⟩ := startRecording_basic t2 s
  obtain ⟨sl1, st1⟩ := startStreaming_of_inv t1 s hs
  have hinvs1 : (startStreaming t1 s).liveStreamTicks =
      (startStreaming t1 s).streamTimer.toList := by rw [sl1, st1.1]; rfl
  obtain ⟨sl2, st2, _⟩ := startStreaming_of_inv t2 (startStreaming t1 s) hinvs1
  obtain ⟨is2, ss2⟩ := startStreaming_basic t2 (startStreaming t1 s)
  obtain ⟨_, ssSingle⟩ := startStreaming_basic t2 s
  refine ⟨⟨?_, ir2, rs2, ?_, ?_⟩, ⟨?_, is2, ss2, ?_, ?_⟩⟩
  · rw [l2]; rfl
  · rw [rs2, rsSingle]
  · intro now
    exact recordTick_of_recordStart now (by rw [rs2, rsSingle])
  · rw [sl2]; rfl
  · rw [ss2, ssSingle]
  · intro now
    exact streamTick_of_streamStart now (by rw [ss2, ssSingle])

/-- C3 counterexample: starting at time 0 and again at time 5 leaves the
start timestamp at 5, not at the first call's 0 — the claimed preservation
fails (the elapsed time after the second call restarts from zero). -/
theorem c3_timestamp_not_preserved :
    (startRecording 5 (startRecording 0 initState)).recordStart ≠ some 0 ∧
      (startRecording 5 (startRecording 0 initState)).recordStart = some 5 := by
  constructor
  · decide
  · decide

/-- C3 witness: the amended theorem applied at the initial state. -/
theorem c3_witness :
    tickInv initState ∧
      (startRecording 5 (startRecording 0 initState)).liveRecordTicks.length = 1 ∧
      (startRecording 5 (startRecording 0 initState)).recordStart = some 5 :=
  ⟨by decide,
    (c3_double_start initState 0 5 (by decide)).1.1,
    (c3_double_start initState 0 5 (by decide)).1.2.2.1⟩

/-! ### C5 / C6 — scene registry replacement and normalization -/

theorem keys_insertScene (m : List (String × Scene)) (k : String) (v : Scene) :
    (insertScene m k v).map Prod.fst =
      if m.any (fun p => p.1 == k) then m.map Prod.fst else m.map Prod.fst ++ [k] := by
  unfold insertScene
  split
  · next h =>
    rw [List.map_map]
    apply List.map_congr_left
    intro p hp
    dsimp only [Function.comp]
    split
    · next hpk => exact (beq_iff_eq.mp hpk).symm
    · rfl
  · next h => simp

theorem mem_keys_insertScene (m : List (String × Scene)) (k : String) (v : Scene)
    (k' : String) :
    k' ∈ (insertScene m k v).map Prod.fst ↔ k' ∈ m.map Prod.fst ∨ k' = k := by
  rw [keys_insertScene]
  split
  · next h =>
    simp only [List.any_eq_true] at h
    obtain ⟨p, hp, hpk⟩ := h
    have hk : k ∈ m.map Prod.fst := List.mem_map.mpr ⟨p, hp, beq_iff_eq.mp hpk⟩
    constructor
    · exact Or.inl
    · rintro (h1 | rfl)
      · exact h1
      · exact hk
  · simp

theorem nodup_keys_insertScene (m : List (String × Scene)) (k : String) (v : Scene)
    (h : (m.map Prod.fst).Nodup) : ((insertScene m k v).map Prod.fst).Nodup := by
  rw [keys_insertScene]
  split
  · exact h
  · next hna =>
    have hk : k ∉ m.map Prod.fst := by
      intro hmem
      obtain ⟨p, hp, hpk⟩ := List.mem_map.mp hmem
      exact hna (List.any_eq_true.mpr ⟨p, hp, by simp [hpk]⟩)
    simp [List.nodup_append, h, hk]

theorem mem_keys_ingestFold (g : RawScene → Scene) :
    ∀ (xs : List RawScene) (m : List (String × Scene)) (k : String),
      k ∈ ((xs.foldl (fun acc r => insertScene acc r.id (g r)) m).map Prod.fst) ↔
        k ∈ m.map Prod.fst ∨ k ∈ xs.map RawScene.id
  | [], m, k => by simp
  | x :: xs, m, k => by
    simp only [List.foldl_cons]
    rw [mem_keys_ingestFold g xs _ k, mem_keys_insertScene]
    simp only [List.map_cons, List.mem_cons]
    tauto

theorem nodup_keys_ingestFold (g : RawScene → Scene) :
    ∀ (xs : List RawScene) (m : List (String × Scene)),
      (m.map Prod.fst).Nodup →
        ((xs.foldl (fun acc r => insertScene acc r.id (g r)) m).map Prod.fst).Nodup
  | [], _, h => h
  | x :: xs, m, h => by
    simp only [List.foldl_cons]
    exact nodup_keys_ingestFold g xs _ (nodup_keys_insertScene m x.id (g x) h)

theorem mem_insertScene_pairs (m : List (String × Scene)) (k : String) (v : Scene)
    (p : String × Scene) : p ∈ insertScene m k v → p ∈ m ∨ p = (k, v) := by
  unfold insertScene
  split
  · intro h
    obtain ⟨q, hq, he⟩ := List.mem_map.mp h
    by_cases hqk : (q.1 == k) = true
    · rw [if_pos hqk] at he
      exact Or.inr he.symm
    · rw [if_neg hqk] at he
      exact Or.inl (he ▸ hq)
  · intro h
    rcases List.mem_append.mp h with h1 | h1
    · exact Or.inl h1
    · exact Or.inr (by simpa using h1)

theorem mem_ingestFold_pairs (g : RawScene → Scene) :
    ∀ (xs : List RawScene) (m : List (String × Scene)) (p : String × Scene),
      p ∈ xs.foldl (fun acc r => insertScene acc r.id (g r)) m →
        p ∈ m ∨ ∃ r, r ∈ xs ∧ p = (r.id, g r)
  | [], m, p => fun h => Or.inl h
  | x :: xs, m, p => by
    simp only [List.foldl_cons]
    intro h
    rcases mem_ingestFold_pairs g xs _ p h with h1 | ⟨r, hr, he⟩
    · rcases mem_insertScene_pairs m x.id (g x) p h1 with h2 | h2
      · exact Or.inl h2
      · exact Or.inr ⟨x, List.mem_cons_self x xs, h2⟩
    · exact Or.inr ⟨r, List.mem_cons_of_mem x hr, he⟩

/-- C5: a refresh rebuilds the scene mapping from the newest input alone —
the result's keys are exactly the identifiers of the most recent input
(one entry per identifier, nothing else), independent of every earlier
state; refreshing with scene set A and then B leaves exactly B. -/
theorem c5_registry_replacement :
    (∀ (s : ModState) (xs : List RawScene), (ingestScenes s xs).scenes = ingestMap xs) ∧
    (∀ (xs : List RawScene) (k : String),
      k ∈ (ingestMap xs).map Prod.fst ↔ k ∈ xs.map RawScene.id) ∧
    (∀ xs : List RawScene, ((ingestMap xs).map Prod.fst).Nodup) ∧
    (ingestScenes (ingestScenes initState [⟨"A", "Scene A"⟩]) [⟨"B", "Scene B"⟩]).scenes =
      [("B", ⟨"B", "Scene B"⟩)] := by
  refine ⟨fun s xs => rfl, fun xs k => ?_, fun xs => ?_, by decide⟩
  · unfold ingestMap
    rw [mem_keys_ingestFold]
    simp
  · unfold ingestMap
    exact nodup_keys_ingestFold mkScene xs [] (by simp)

/-- C6 (amended): every stored entry keeps its raw identifier as both the
key and the stored `id`, and its display name is `cleanName` of
`name || id`: the name truncated at the first opening parenthesis from
which a closing parenthesis followed only by trailing whitespace is
reachable over non-newline characters, also dropping the whitespace
immediately before that parenthesis (so a single trailing parenthetical
group is stripped, but a parenthesis earlier in the name extends the
stripped segment).  The quoted examples hold. -/
theorem c6_name_normalization :
    (∀ (s : ModState) (xs : List RawScene) (k : String) (v : Scene),
      (k, v) ∈ (ingestScenes s xs).scenes →
        v.id = k ∧ ∃ r, r ∈ xs ∧ r.id = k ∧
          v.name = cleanName (if r.name = "" then r.id else r.name)) ∧
    cleanName "Main (Program)" = "Main" ∧
    cleanName "Lower Thirds" = "Lower Thirds" ∧
    (ingestScenes initState [⟨"s1", ""⟩]).scenes = [("s1", ⟨"s1", "s1"⟩)] := by
  refine ⟨?_, by decide, by decide, by decide⟩
  intro s xs k v h
  have h1 := mem_ingestFold_pairs mkScene xs [] (k, v) h
  rcases h1 with h2 | ⟨r, hr, he⟩
  · cases h2
  · have hk : r.id = k := congrArg Prod.fst he |>.symm
    have hv : v = mkScene r := congrArg Prod.snd he
    refine ⟨?_, r, hr, hk, ?_⟩
    · rw [hv]; exact hk
    · rw [hv]; rfl

/-- C6 counterexample: with the raw name containing an inner parenthetical
before the trailing one, the code strips from the FIRST parenthesis —
`"A (B) (C)"` is stored as `"A"`, not as the claim's "one trailing
parenthetical group stripped" result `"A (B)"`. -/
theorem c6_strips_more_than_one_group :
    (ingestScenes initState [⟨"x", "A (B) (C)"⟩]).scenes = [("x", ⟨"x", "A"⟩)] ∧
      cleanName "A (B) (C)" = "A" ∧ "A" ≠ "A (B)" := by
  refine ⟨by decide, by decide, by decide⟩

/-- C6 witness: the amended theorem applied to the empty-name scene. -/
theorem c6_witness :
    (("s1", (⟨"s1", "s1"⟩ : Scene)) ∈ (ingestScenes initState [⟨"s1", ""⟩]).scenes) ∧
      ((⟨"s1", "s1"⟩ : Scene).id = "s1" ∧ ∃ r, r ∈ [(⟨"s1", ""⟩ : RawScene)] ∧
        r.id = "s1" ∧ (⟨"s1", "s1"⟩ : Scene).name =
          cleanName (if r.name = "" then r.id else r.name)) :=
  ⟨by decide,
    c6_name_normalization.1 initState [⟨"s1", ""⟩] "s1" ⟨"s1", "s1"⟩ (by decide)⟩

/-! ### C7 — record/stream action callbacks -/

/-- Forget the remote-call log, keeping every local field. -/
def scrubRemote (s : ModState) : ModState :=
  { s with remoteCalls := [] }

theorem scrubRemote_callRemote (s : ModState) (n : String) :
    scrubRemote (callRemote s n) = scrubRemote s := by
  obtain ⟨q, w, sc, cu, iR, iS, rS, sS, rT, sT, lr, ls, ni, rc1, sc1, st, pe, lo, re⟩ := s
  rfl

@[simp] theorem callRemote_isStreaming (s : ModState) (n : String) :
    (callRemote s n).isStreaming = s.isStreaming := rfl

@[simp] theorem callRemote_isRecording (s : ModState) (n : String) :
    (callRemote s n).isRecording = s.isRecording := rfl

@[simp] theorem callRemote_remoteCalls (s : ModState) (n : String) :
    (callRemote s n).remoteCalls = s.remoteCalls ++ [n] := rfl

theorem startStreaming_callRemote (now : Int) (s : ModState) (n : String) :
    startStreaming now (callRemote s n) = callRemote (startStreaming now s) n := by
  obtain ⟨q, w, sc, cu, iR, iS, rS, sS, rT, sT, lr, ls, ni, rc1, sc1, st, pe, lo, re⟩ := s
  cases sT <;> rfl

theorem stopStreaming_callRemote (s : ModState) (n : String) :
    stopStreaming (callRemote s n) = callRemote (stopStreaming s) n := by
  obtain ⟨q, w, sc, cu, iR, iS, rS, sS, rT, sT, lr, ls, ni, rc1, sc1, st, pe, lo, re⟩ := s
  cases sT <;> rfl

theorem startRecording_callRemote (now : Int) (s : ModState) (n : String) :
    startRecording now (callRemote s n) = callRemote (startRecording now s) n := by
  obtain ⟨q, w, sc, cu, iR, iS, rS, sS, rT, sT, lr, ls, ni, rc1, sc1, st, pe, lo, re⟩ := s
  cases rT <;> rfl

theorem stopRecording_callRemote (s : ModState) (n : String) :
    stopRecording (callRemote s n) = callRemote (stopRecording s) n := by
  obtain ⟨q, w, sc, cu, iR, iS, rS, sS, rT, sT, lr, ls, ni, rc1, sc1, st, pe, lo, re⟩ := s
  cases rT <;> rfl

@[simp] theorem startStreaming_remoteCalls (now : Int) (s : ModState) :
    (startStreaming now s).remoteCalls = s.remoteCalls := by
  obtain ⟨q, w, sc, cu, iR, iS, rS, sS, rT, sT, lr, ls, ni, rc1, sc1, st, pe, lo, re⟩ := s
  cases sT <;> rfl

@[simp] theorem stopStreaming_remoteCalls (s : ModState) :
    (stopStreaming s).remoteCalls = s.remoteCalls := by
  obtain ⟨q, w, sc, cu, iR, iS, rS, sS, rT, sT, lr, ls, ni, rc1, sc1, st, pe, lo, re⟩ := s
  cases rT <;> cases sT <;> rfl

@[simp] theorem startRecording_remoteCalls (now : Int) (s : ModState) :
    (startRecording now s).remoteCalls = s.remoteCalls := by
  obtain ⟨q, w, sc, cu, iR, iS, rS, sS, rT, sT, lr, ls, ni, rc1, sc1, st, pe, lo, re⟩ := s
  cases rT <;> rfl

@[simp] theorem stopRecording_remoteCalls (s : ModState) :
    (stopRecording s).remoteCalls = s.remoteCalls := by
  obtain ⟨q, w, sc, cu, iR, iS, rS, sS, rT, sT, lr, ls, ni, rc1, sc1, st, pe, lo, re⟩ := s
  cases rT <;> cases sT <;> rfl

/-- C7 (amended): the toggle actions try a primary remote method name with
a fallback to an alternate name, but the start/stop actions try exactly one
name with NO fallback; in every case (proxy present or absent, capability
present or absent), the matching optimistic local transition is performed
and coincides — on every local field — with the `onRecording/
StreamingStateChange` entry points used by remote-driven transitions. -/
theorem c7_callbacks (now : Int) (s : ModState) :
    ((cbToggleStream now s).remoteCalls = s.remoteCalls ++
        (match s.qweb with
          | none => []
          | some p =>
            if p.toggleStream then ["toggleStream"]
            else if p.toggleStreaming then ["toggleStreaming"]
            else [])) ∧
    ((cbStartStream now s).remoteCalls = s.remoteCalls ++
        (match s.qweb with
          | none => []
          | some p => if p.startStream then ["startStream"] else [])) ∧
    ((cbStopStream s).remoteCalls = s.remoteCalls ++
        (match s.qweb with
          | none => []
          | some p => if p.stopStream then ["stopStream"] else [])) ∧
    ((cbToggleRecord now s).remoteCalls = s.remoteCalls ++
        (match s.qweb with
          | none => []
          | some p =>
            if p.toggleRecord then ["toggleRecord"]
            else if p.toggleRecording then ["toggleRecording"]
            else [])) ∧
    ((cbStartRecord now s).remoteCalls = s.remoteCalls ++
        (match s.qweb with
          | none => []
          | some p => if p.startRecord then ["startRecord"] else [])) ∧
    ((cbStopRecord s).remoteCalls = s.remoteCalls ++
        (match s.qweb with
          | none => []
          | some p => if p.stopRecord then ["stopRecord"] else [])) ∧
    scrubRemote (cbToggleStream now s) =
      scrubRemote (onStreamingStateChange now (!s.isStreaming) s) ∧
    scrubRemote (cbStartStream now s) = scrubRemote (onStreamingStateChange now true s) ∧
    scrubRemote (cbStopStream s) = scrubRemote (onStreamingStateChange now false s) ∧
    scrubRemote (cbToggleRecord now s) =
      scrubRemote (onRecordingStateChange now (!s.isRecording) s) ∧
    scrubRemote (cbStartRecord now s) = scrubRemote (onRecordingStateChange now true s) ∧
    scrubRemote (cbStopRecord s) = scrubRemote (onRecordingStateChange now false s) := by
  refine ⟨?_, ?_, ?_, ?_, ?_, ?_, ?_, ?_, ?_, ?_, ?_, ?_⟩
  · cases hq : s.qweb with
    | none => simp only [cbToggleStream, hq]; split <;> simp
    | some p =>
      cases h1 : p.toggleStream <;> cases h2 : p.toggleStreaming <;>
        simp only [cbToggleStream, hq, h1, h2, callRemote_isStreaming] <;>
        cases hs : s.isStreaming <;> simp_all
  · cases hq : s.qweb with
    | none => simp only [cbStartStream, hq]; split <;> simp
    | some p =>
      cases h3 : p.startStream <;>
        simp only [cbStartStream, hq, h3, callRemote_isStreaming] <;>
        cases hs : s.isStreaming <;> simp_all
  · cases hq : s.qweb with
    | none => simp only [cbStopStream, hq]; split <;> simp
    | some p =>
      cases h4 : p.stopStream <;>
        simp only [cbStopStream, hq, h4, callRemote_isStreaming] <;>
        cases hs : s.isStreaming <;> simp_all
  · cases hq : s.qweb with
    | none => simp only [cbToggleRecord, hq]; split <;> simp
    | some p =>
      cases h5 : p.toggleRecord <;> cases h6 : p.toggleRecording <;>
        simp only [cbToggleRecord, hq, h5, h6, callRemote_isRecording] <;>
        cases hr : s.isRecording <;> simp_all
  · cases hq : s.qweb with
    | none => simp only [cbStartRecord, hq]; split <;> simp
    | some p =>
      cases h7 : p.startRecord <;>
        simp only [cbStartRecord, hq, h7, callRemote_isRecording] <;>
        cases hr : s.isRecording <;> simp_all
  · cases hq : s.qweb with
    | none => simp only [cbStopRecord, hq]; split <;> simp
    | some p =>
      cases h8 : p.stopRecord <;>
        simp only [cbStopRecord, hq, h8, callRemote_isRecording] <;>
        cases hr : s.isRecording <;> simp_all
  · cases hq : s.qweb with
    | none =>
      simp only [cbToggleStream, onStreamingStateChange, hq]
      cases hs : s.isStreaming <;> simp
    | some p =>
      cases h1 : p.toggleStream <;> cases h2 : p.toggleStreaming <;>
        simp only [cbToggleStream, onStreamingStateChange, hq, h1, h2,
          callRemote_isStreaming] <;>
        cases hs : s.isStreaming <;>
        simp_all [startStreaming_callRemote, stopStreaming_callRemote,
          scrubRemote_callRemote]
  · cases hq : s.qweb with
    | none =>
      simp only [cbStartStream, onStreamingStateChange, hq]
      cases hs : s.isStreaming <;> simp
    | some p =>
      cases h3 : p.startStream <;>
        simp only [cbStartStream, onStreamingStateChange, hq, h3,
          callRemote_isStreaming] <;>
        cases hs : s.isStreaming <;>
        simp_all [startStreaming_callRemote, scrubRemote_callRemote]
  · cases hq : s.qweb with
    | none =>
      simp only [cbStopStream, onStreamingStateChange, hq]
      cases hs : s.isStreaming <;> simp
    | some p =>
      cases h4 : p.stopStream <;>
        simp only [cbStopStream, onStreamingStateChange, hq, h4,
          callRemote_isStreaming] <;>
        cases hs : s.isStreaming <;>
        simp_all [stopStreaming_callRemote, scrubRemote_callRemote]
  · cases hq : s.qweb with
    | none =>
      simp only [cbToggleRecord, onRecordingStateChange, hq]
      cases hr : s.isRecording <;> simp
    | some p =>
      cases h5 : p.toggleRecord <;> cases h6 : p.toggleRecording <;>
        simp only [cbToggleRecord, onRecordingStateChange, hq, h5, h6,
          callRemote_isRecording] <;>
        cases hr : s.isRecording <;>
        simp_all [startRecording_callRemote, stopRecording_callRemote,
          scrubRemote_callRemote]
  · cases hq : s.qweb with
    | none =>
      simp only [cbStartRecord, onRecordingStateChange, hq]
      cases hr : s.isRecording <;> simp
    | some p =>
      cases h7 : p.startRecord <;>
        simp only [cbStartRecord, onRecordingStateChange, hq, h7,
          callRemote_isRecording] <;>
        cases hr : s.isRecording <;>
        simp_all [startRecording_callRemote, scrubRemote_callRemote]
  · cases hq : s.qweb with
    | none =>
      simp only [cbStopRecord, onRecordingStateChange, hq]
      cases hr : s.isRecording <;> simp
    | some p =>
      cases h8 : p.stopRecord <;>
        simp only [cbStopRecord, onRecordingStateChange, hq, h8,
          callRemote_isRecording] <;>
        cases hr : s.isRecording <;>
        simp_all [stopRecording_callRemote, scrubRemote_callRemote]

/-- C7 counterexample: a proxy exposing only the alternate names
(`startStreaming`, not `startStream`): the `start_stream` callback makes
no remote call at all (no fallback is attempted), although it still
performs the optimistic local start. -/
def altCaps : ProxyCaps :=
  { emptyCaps with
    startStreaming := true
    stopStreaming := true
    startRecording := true
    stopRecording := true }

theorem c7_no_fallback_for_start :
    altCaps.startStreaming = true ∧
      (cbStartStream 0 { initState with qweb := some altCaps }).remoteCalls = [] ∧
      (cbStartStream 0 { initState with qweb := some altCaps }).isStreaming = true := by
  refine ⟨rfl, by decide, by decide⟩

/-! ### C8 — scene refresh with no discovery capability -/

/-- C8 (amended): with a bound proxy that exposes neither `getScenes` nor
`session.items`, the refresh only appends the warning to the log; every
other field — in particular the previously held scene set — is left
unchanged (so the scene set is empty only if it already was), and the
function is total (no error path). -/
theorem c8_warn_changes_only_log (s : ModState) (p : ProxyCaps)
    (hq : s.qweb = some p) (hg : p.getScenes = none) (hs : p.session = none) :
    refreshScenes s = { s with log := s.log ++ [noScenesWarning] } := by
  unfold refreshScenes
  rw [hq]
  dsimp only
  rw [hg]
  dsimp only
  rw [hs]

/-- A state carrying a scene set from an earlier connection, now bound to
a proxy with no discovery capability. -/
def staleScenesState : ModState :=
  { initState with qweb := some emptyCaps, scenes := [("A", ⟨"A", "A"⟩)] }

/-- C8 counterexample: when the prior scene set is non-empty, the warning
path leaves it in place — the scene set is NOT left empty as claimed. -/
theorem c8_scene_set_not_emptied :
    (refreshScenes staleScenesState).scenes = [("A", ⟨"A", "A"⟩)] ∧
      (refreshScenes staleScenesState).scenes ≠ [] := by
  refine ⟨by decide, by decide⟩

/-- C8 witness: the amended theorem applied to `staleScenesState`. -/
theorem c8_witness :
    refreshScenes staleScenesState =
      { staleScenesState with log := staleScenesState.log ++ [noScenesWarning] } :=
  c8_warn_changes_only_log staleScenesState emptyCaps rfl rfl rfl

/-! ### C10 — effective host and port -/

/-- C10: `init` and `configUpdated` compute the same effective target; the
host is the configured one exactly when it is a non-empty string and the
default `127.0.0.1` otherwise; the port is `Number(port)` exactly when that
value is truthy (non-`NaN`, nonzero) and the default `13376` otherwise —
missing, zero or non-numeric ports silently fall back, while an
out-of-range nonzero number (e.g. 70000) is kept as-is. -/
theorem c10_effective_config :
    (∀ c : Option Config, initConfig c = configUpdatedConfig c) ∧
    initConfig none = ⟨"127.0.0.1", .num 13376⟩ ∧
    (∀ (cfg : Config) (h : String),
      cfg.host = some h → h ≠ "" → (initConfig (some cfg)).host = h) ∧
    (∀ cfg : Config,
      cfg.host = none ∨ cfg.host = some "" → (initConfig (some cfg)).host = "127.0.0.1") ∧
    (∀ cfg : Config,
      truthyNum (toNumber cfg.port) = true →
        (initConfig (some cfg)).port = toNumber cfg.port) ∧
    (∀ cfg : Config,
      truthyNum (toNumber cfg.port) = false →
        (initConfig (some cfg)).port = .num 13376) ∧
    initConfig (some ⟨some "10.0.0.5", some (.num 70000)⟩) = ⟨"10.0.0.5", .num 70000⟩ ∧
    initConfig (some ⟨some "myhost", some (.num 0)⟩) = ⟨"myhost", .num 13376⟩ ∧
    initConfig (some ⟨some "", some .nan⟩) = ⟨"127.0.0.1", .num 13376⟩ ∧
    initConfig (some ⟨none, none⟩) = ⟨"127.0.0.1", .num 13376⟩ := by
  refine ⟨fun c => rfl, rfl, ?_, ?_, ?_, ?_, by decide, by decide, by decide, by decide⟩
  · intro cfg h hh hne
    simp [initConfig, hh, hne]
  · rintro cfg (hh | hh) <;> simp [initConfig, hh]
  · intro cfg ht
    simp [initConfig, ht]
  · intro cfg ht
    simp [initConfig, ht]

/-- C10 witness: the hypothesis-bearing conjuncts applied at concrete
configurations. -/
theorem c10_witness :
    (initConfig (some ⟨some "10.0.0.5", some (.num 70000)⟩)).host = "10.0.0.5" ∧
      (initConfig (some ⟨some "10.0.0.5", some (.num 70000)⟩)).port =
        toNumber (some (.num 70000)) :=
  ⟨c10_effective_config.2.2.1 ⟨some "10.0.0.5", some (.num 70000)⟩ "10.0.0.5" rfl
      (by decide),
    c10_effective_config.2.2.2.2.1 ⟨some "10.0.0.5", some (.num 70000)⟩ (by decide)⟩

end MeldStudio
